import Mathlib

/-!
Verification development for `rpiremote_server.py`, a Raspberry Pi video
streaming server (HTTP static-asset handler, jsmpeg websocket handshake,
a broadcast thread forwarding 512-byte chunks from an external `avconv`
transcoding process, and a signal-driven cleanup sequence).

The Python source is shallowly embedded: pure fragments become Lean
functions, the HTTP handler becomes a function from request to response,
the broadcast loop and the cleanup sequence become explicit event traces,
and the `string.Template` engine used for the viewer page is embedded as
a character-level scanner.
-/

/-! ### Configuration constants (module-level CONFIGURATION block) -/

def WIDTH : Nat := 640

def HEIGHT : Nat := 480

def FRAMERATE : Nat := 24

def HTTP_PORT : Nat := 8082

def WS_PORT : Nat := 8084

def COLOR : String := "#444"

def BGCOLOR : String := "#333"

/-- The bytes of the magic token `b'jsmp'` (`JSMPEG_MAGIC`). -/
def JSMPEG_MAGIC : List Nat := [0x6A, 0x73, 0x6D, 0x70]

/-! ### `struct.Struct('>4sHH').pack` — the websocket handshake header -/

/-- `struct` format `4s`: a byte string truncated or zero-padded to 4 bytes. -/
def pack4s (s : List Nat) : List Nat :=
  s.take 4 ++ List.replicate (4 - s.length) 0

/-- `struct` format `>H`: an unsigned 16-bit big-endian integer.  `struct.pack`
rejects values outside `[0, 65536)`; the reduction mod 256 per byte makes the
embedding total and agrees with `pack` on all in-range values. -/
def packH (n : Nat) : List Nat := [n / 256 % 256, n % 256]

/-- `JSMPEG_HEADER.pack(magic, w, h)` for `JSMPEG_HEADER = Struct('>4sHH')`. -/
def jsmpegHeaderPack (magic : List Nat) (w h : Nat) : List Nat :=
  pack4s magic ++ packH w ++ packH h

/-- A message a viewer session observes on its websocket. -/
inductive WsMsg
  | handshake (bytes : List Nat)
  | frame (bytes : List Nat)
deriving DecidableEq, Repr

def isHandshakeMsg : WsMsg → Bool
  | WsMsg.handshake _ => true
  | WsMsg.frame _ => false

/-- `StreamingWebSocket.opened` sends exactly one message: the packed jsmpeg
header for the configured resolution.  The websocket layer invokes `opened`
once, when the connection is established. -/
def openedMessages : List WsMsg :=
  [WsMsg.handshake (jsmpegHeaderPack JSMPEG_MAGIC WIDTH HEIGHT)]

/-- The full message sequence one viewer session observes: the messages sent
by `opened` at connection time, followed by the broadcast frames delivered to
it afterwards. -/
def sessionObserved (frames : List (List Nat)) : List WsMsg :=
  openedMessages ++ frames.map WsMsg.frame

/-! ### `string.Template` — the substitution engine used for `index.html`

`Template.safe_substitute` scans for `$$`, `$identifier` and
`${identifier}` where an identifier matches `[_a-zA-Z][_a-zA-Z0-9]*`
(ASCII, case-insensitive pattern).  Known placeholders are replaced with
`str(value)`, unknown ones are left untouched, and an invalid `$` is left
as-is.  The strict `Template.substitute` instead raises `ValueError` on an
invalid `$` and `KeyError` on an unknown placeholder.  Both are embedded
below as a character-level state machine, structurally recursive on the
remaining input. -/

def isIdentStart (c : Char) : Bool := c == '_' || c.isAlpha

def isIdentChar (c : Char) : Bool := c == '_' || c.isAlphanum

/-- Scanner mode: plain text, just after a `$`, inside `${...}` with the
identifier characters read so far, or inside an unbraced `$ident` run. -/
inductive SubMode
  | plain
  | afterDollar
  | inBraced (acc : List Char)
  | inIdent (acc : List Char)

/-- Replacement text for a completed unbraced `$acc` placeholder:
`str(mapping[acc])` when the key is known, the original text otherwise. -/
def resolveNamed (m : List (String × String)) (acc : List Char) : List Char :=
  match List.lookup (String.mk acc) m with
  | some v => v.data
  | none => '$' :: acc

/-- Replacement text for a completed braced placeholder:
`str(mapping[acc])` when the key is known, the original text otherwise. -/
def resolveBraced (m : List (String × String)) (acc : List Char) : List Char :=
  match List.lookup (String.mk acc) m with
  | some v => v.data
  | none => '$' :: '{' :: (acc ++ ['}'])

/-- One-character-at-a-time embedding of `Template.safe_substitute`. -/
def safeSubAux (m : List (String × String)) : SubMode → List Char → List Char
  | SubMode.plain, [] => []
  | SubMode.plain, c :: r =>
      if c == '$' then safeSubAux m SubMode.afterDollar r
      else c :: safeSubAux m SubMode.plain r
  | SubMode.afterDollar, [] => ['$']
  | SubMode.afterDollar, c :: r =>
      if c == '$' then '$' :: safeSubAux m SubMode.plain r
      else if c == '{' then safeSubAux m (SubMode.inBraced []) r
      else if isIdentStart c then safeSubAux m (SubMode.inIdent [c]) r
      else '$' :: c :: safeSubAux m SubMode.plain r
  | SubMode.inBraced acc, [] => '$' :: '{' :: acc
  | SubMode.inBraced acc, c :: r =>
      if (if acc.isEmpty then isIdentStart c else isIdentChar c) then
        safeSubAux m (SubMode.inBraced (acc ++ [c])) r
      else if c == '}' && !acc.isEmpty then
        resolveBraced m acc ++ safeSubAux m SubMode.plain r
      else if c == '$' then
        '$' :: '{' :: acc ++ safeSubAux m SubMode.afterDollar r
      else
        '$' :: '{' :: (acc ++ [c]) ++ safeSubAux m SubMode.plain r
  | SubMode.inIdent acc, [] => resolveNamed m acc
  | SubMode.inIdent acc, c :: r =>
      if isIdentChar c then safeSubAux m (SubMode.inIdent (acc ++ [c])) r
      else if c == '$' then resolveNamed m acc ++ safeSubAux m SubMode.afterDollar r
      else resolveNamed m acc ++ c :: safeSubAux m SubMode.plain r

def safeSubList (m : List (String × String)) (l : List Char) : List Char :=
  safeSubAux m SubMode.plain l

/-- `Template(tpl).safe_substitute(m)`. -/
def safeSubstitute (m : List (String × String)) (tpl : String) : String :=
  String.mk (safeSubList m tpl.data)

/-- Errors the strict `Template.substitute` can raise. -/
inductive SubError
  | invalidPlaceholder
  | keyError (k : List Char)
deriving DecidableEq, Repr

/-- One-character-at-a-time embedding of the strict `Template.substitute`,
which raises on an invalid `$` or an unknown placeholder. -/
def subAuxStrict (m : List (String × String)) :
    SubMode → List Char → Except SubError (List Char)
  | SubMode.plain, [] => Except.ok []
  | SubMode.plain, c :: r =>
      if c == '$' then subAuxStrict m SubMode.afterDollar r
      else (subAuxStrict m SubMode.plain r).map (c :: ·)
  | SubMode.afterDollar, [] => Except.error SubError.invalidPlaceholder
  | SubMode.afterDollar, c :: r =>
      if c == '$' then (subAuxStrict m SubMode.plain r).map ('$' :: ·)
      else if c == '{' then subAuxStrict m (SubMode.inBraced []) r
      else if isIdentStart c then subAuxStrict m (SubMode.inIdent [c]) r
      else Except.error SubError.invalidPlaceholder
  | SubMode.inBraced _, [] => Except.error SubError.invalidPlaceholder
  | SubMode.inBraced acc, c :: r =>
      if (if acc.isEmpty then isIdentStart c else isIdentChar c) then
        subAuxStrict m (SubMode.inBraced (acc ++ [c])) r
      else if c == '}' && !acc.isEmpty then
        match List.lookup (String.mk acc) m with
        | some v => (subAuxStrict m SubMode.plain r).map (fun t => v.data ++ t)
        | none => Except.error (SubError.keyError acc)
      else Except.error SubError.invalidPlaceholder
  | SubMode.inIdent acc, [] =>
      match List.lookup (String.mk acc) m with
      | some v => Except.ok v.data
      | none => Except.error (SubError.keyError acc)
  | SubMode.inIdent acc, c :: r =>
      if isIdentChar c then subAuxStrict m (SubMode.inIdent (acc ++ [c])) r
      else
        match List.lookup (String.mk acc) m with
        | some v =>
            if c == '$' then (subAuxStrict m SubMode.afterDollar r).map (fun t => v.data ++ t)
            else (subAuxStrict m SubMode.plain r).map (fun t => v.data ++ c :: t)
        | none => Except.error (SubError.keyError acc)

/-- `Template(tpl).substitute(m)`. -/
def subStrict (m : List (String × String)) (tpl : String) : Except SubError (List Char) :=
  subAuxStrict m SubMode.plain tpl.data

/-! ### The HTTP handler (`StreamingHttpHandler`) -/

/-- The `'%s:%d' % (sockname, WS_PORT)` value substituted for `ADDRESS`. -/
def wsAddress (host : String) : String := host ++ ":" ++ toString WS_PORT

/-- The substitution mapping built in `do_GET` for `/index.html`
(`dict(ADDRESS=..., WIDTH=WIDTH, HEIGHT=HEIGHT, COLOR=COLOR,
BGCOLOR=BGCOLOR)`; `Template.safe_substitute` applies `str` to values). -/
def templateEnv (host : String) : List (String × String) :=
  [("ADDRESS", wsAddress host), ("WIDTH", toString WIDTH),
   ("HEIGHT", toString HEIGHT), ("COLOR", COLOR), ("BGCOLOR", BGCOLOR)]

inductive Method
  | GET
  | HEAD
deriving DecidableEq, Repr

structure HttpResponse where
  status : Nat
  headers : List (String × String)
  body : Option String
deriving DecidableEq, Repr

/-- Request context: the two files read at server construction, the socket
host name, and the values `BaseHTTPRequestHandler` stamps on every
response (`send_response` adds `Server` and `Date` automatically). -/
structure Ctx where
  indexTemplate : String
  jsmpgContent : String
  host : String
  nowHttpDate : String
  serverVersion : String

/-- Headers `send_response` emits before any explicit `send_header` call. -/
def stdHeaders (ctx : Ctx) : List (String × String) :=
  [("Server", ctx.serverVersion), ("Date", ctx.nowHttpDate)]

/-- The 200 tail of `do_GET`: Content-Type, Content-Length (UTF-8 byte count),
Last-Modified (`date_time_string(time())`), and the body only for GET. -/
def respond200 (ctx : Ctx) (cmd : Method) (contentType content : String) : HttpResponse :=
  { status := 200
  , headers := stdHeaders ctx ++
      [("Content-Type", contentType),
       ("Content-Length", toString content.utf8ByteSize),
       ("Last-Modified", ctx.nowHttpDate)]
  , body := if cmd = Method.GET then some content else none }

/-- The HTML body `http.server`'s `send_error` generates for
`404, 'File not found'` (stdlib `DEFAULT_ERROR_MESSAGE` template). -/
def errorBody404 : String :=
  "<!DOCTYPE HTML>\n<html lang=\"en\">\n    <head>\n        <meta charset=\"utf-8\">\n        <title>Error response</title>\n    </head>\n    <body>\n        <h1>Error response</h1>\n        <p>Error code: 404</p>\n        <p>Message: File not found.</p>\n        <p>Error code explanation: 404 - Nothing matches the given URI.</p>\n    </body>\n</html>\n"

/-- `send_error(404, 'File not found')`: stdlib adds Connection, Content-Type
and Content-Length headers and writes the error body except for HEAD. -/
def sendError404 (ctx : Ctx) (cmd : Method) : HttpResponse :=
  { status := 404
  , headers := stdHeaders ctx ++
      [("Connection", "close"),
       ("Content-Type", "text/html;charset=utf-8"),
       ("Content-Length", toString errorBody404.utf8ByteSize)]
  , body := if cmd = Method.GET then some errorBody404 else none }

/-- The templated `/index.html` body. -/
def indexBody (ctx : Ctx) : String :=
  safeSubstitute (templateEnv ctx.host) ctx.indexTemplate

/-- `StreamingHttpHandler.do_GET` (and `do_HEAD`, which delegates to it):
`/` is a bare 301 redirect, `/jsmpg.js` and `/index.html` take the shared
200 tail, everything else is `send_error(404)`.  The branch order matches
the source. -/
def handleRequest (ctx : Ctx) (cmd : Method) (path : String) : HttpResponse :=
  if path = "/" then
    { status := 301
    , headers := stdHeaders ctx ++ [("Location", "/index.html")]
    , body := none }
  else if path = "/jsmpg.js" then
    respond200 ctx cmd "application/javascript" ctx.jsmpgContent
  else if path = "/index.html" then
    respond200 ctx cmd "text/html; charset=utf-8" (indexBody ctx)
  else
    sendError404 ctx cmd

def hasHeader (r : HttpResponse) (k : String) : Bool :=
  r.headers.any (fun p => p.1 == k)

/-- Whether `pat` occurs as a contiguous segment of `l`. -/
def containsSeg (pat : List Char) : List Char → Bool
  | [] => pat.isEmpty
  | l@(_ :: t) => pat.isPrefixOf l || containsSeg pat t

def bodyContains (r : HttpResponse) (s : String) : Bool :=
  match r.body with
  | some b => containsSeg s.data b.data
  | none => false

/-- Modelled from the spec: the repository's `index.html` viewer-page
template is not under `src/`; per the spec it is the viewer page with the
streaming address, resolution and colors substituted in as placeholders. -/
def indexTemplateModel : String :=
  "<html><body bgcolor=${BGCOLOR} text=${COLOR}><canvas width=${WIDTH} height=${HEIGHT}></canvas><script>new jsmpg(new WebSocket(ws://${ADDRESS}/))</script></body></html>"

/-- Modelled from the spec: the repository's `jsmpg.js` client script is not
under `src/`; only its being served verbatim with a JavaScript content type
matters here. -/
def jsmpgContentModel : String := "var jsmpg = function (url, options) Nat.rec"

def sampleHttpDate : String := "Sun, 12 Oct 2026 00:00:00 GMT"

def sampleServerVersion : String := "BaseHTTP/0.6 Python/3.4"

/-- A concrete request context with the configured resolution. -/
def sampleCtx : Ctx :=
  { indexTemplate := indexTemplateModel
  , jsmpgContent := jsmpgContentModel
  , host := "192.168.1.20"
  , nowHttpDate := sampleHttpDate
  , serverVersion := sampleServerVersion }

/-! ### The broadcast thread (`BroadcastThread.run`) -/

/-- The fixed read granularity `self.converter.stdout.read(512)`. -/
def CHUNK_SIZE : Nat := 512

/-- The chunks the forwarding loop hands to `manager.broadcast`, in order,
when the transcoder's total remaining output is `stream`: each iteration
reads at most 512 bytes, broadcasts non-empty reads, and breaks on an empty
read once the process has exited. -/
def broadcastChunks : List Nat → List (List Nat)
  | [] => []
  | c :: s => (c :: s).take CHUNK_SIZE :: broadcastChunks ((c :: s).drop CHUNK_SIZE)
  termination_by s => s.length
  decreasing_by simp [CHUNK_SIZE, List.length_drop]; omega

/-- Observable events of one `BroadcastThread.run` execution. -/
inductive RunEv
  | readEv
  | broadcastEv (b : List Nat)
  | closeEv
deriving DecidableEq, Repr

inductive PyErr
  | readErr
  | sendErr
deriving DecidableEq, Repr

/-- Outcome of one iteration of the `while True` loop: a successful
non-empty read whose broadcast succeeds or raises, an empty read with the
process still alive, or a read that raises. -/
inductive IterOutcome
  | readOk (b : List Nat) (deliverOk : Bool)
  | readEmptyAlive
  | readFail
deriving Repr

/-- The `try` body of `BroadcastThread.run` over a script of iteration
outcomes; after the script is exhausted the next read returns empty with
`poll()` non-None and the loop breaks.  Returns the emitted events and
whether an exception escaped. -/
def runBody : List IterOutcome → List RunEv × Except PyErr Unit
  | [] => ([RunEv.readEv], Except.ok ())
  | IterOutcome.readOk b true :: rest =>
      let p := runBody rest
      (RunEv.readEv :: RunEv.broadcastEv b :: p.1, p.2)
  | IterOutcome.readOk b false :: _ =>
      ([RunEv.readEv, RunEv.broadcastEv b], Except.error PyErr.sendErr)
  | IterOutcome.readFail :: _ =>
      ([RunEv.readEv], Except.error PyErr.readErr)
  | IterOutcome.readEmptyAlive :: rest =>
      let p := runBody rest
      (RunEv.readEv :: p.1, p.2)

/-- `BroadcastThread.run` = the `try` body wrapped in
`finally: self.converter.stdout.close()`: the close runs after the body on
every path and the body's outcome is preserved. -/
def runThread (script : List IterOutcome) : List RunEv × Except PyErr Unit :=
  let p := runBody script
  (p.1 ++ [RunEv.closeEv], p.2)

/-! ### Lifecycle: `BroadcastOutput.flush`, `Server.cleanup`, `endProcess` -/

/-- The externally observable teardown steps, named after the calls in the
source.  `stopCapture` is `camera.stop_recording()` ceasing to feed frames;
`stdinClose` and `converterWait` are the body of `BroadcastOutput.flush`
(invoked by `stop_recording` on its output); `stdoutClose` is the broadcast
thread's `finally`; the rest are the calls in `Server.cleanup`. -/
inductive LifecycleEv
  | stopCapture
  | stdinClose
  | converterWait
  | stdoutClose
  | broadcastJoin
  | httpServerShutdown
  | websocketServerShutdown
  | httpJoin
  | websocketJoin
deriving DecidableEq, Repr

/-- The order in which `Server.cleanup` performs (or waits on) the teardown
steps: `stop_recording` (which runs `flush`: close stdin, wait for the
converter to exit), then `broadcast_thread.join()` (whose loop closes stdout
after draining), then `http_server.shutdown()`, then
`websocket_server.shutdown()`, then the two listener-thread joins. -/
def cleanupEvents : List LifecycleEv :=
  [LifecycleEv.stopCapture, LifecycleEv.stdinClose, LifecycleEv.converterWait,
   LifecycleEv.stdoutClose, LifecycleEv.broadcastJoin,
   LifecycleEv.httpServerShutdown, LifecycleEv.websocketServerShutdown,
   LifecycleEv.httpJoin, LifecycleEv.websocketJoin]

structure ServerState where
  recording : Bool
deriving DecidableEq, Repr

inductive PiCameraError
  | notRecording
deriving DecidableEq, Repr

/-- picamera's `stop_recording` raises `PiCameraNotRecording` when no
recording is active; otherwise it stops the capture (flushing the output on
the way). -/
def stopRecording (s : ServerState) : Except PiCameraError ServerState :=
  if s.recording then Except.ok { recording := false }
  else Except.error PiCameraError.notRecording

/-- `Server.cleanup` is a straight-line sequence of calls with no guard and
no lifecycle flag.  Its first statement is `camera.stop_recording()`: when a
recording is active the full teardown sequence runs; when it is not (e.g. a
second invocation), `stop_recording` raises, the exception propagates out of
`cleanup`, and none of the teardown steps is performed. -/
def cleanup (s : ServerState) : List LifecycleEv × Except PiCameraError ServerState :=
  match stopRecording s with
  | Except.ok s' => (cleanupEvents, Except.ok s')
  | Except.error e => ([], Except.error e)

/-- Calls `BroadcastOutput.flush` makes on the converter `Popen` object. -/
inductive PopenCall
  | waitCall (timeout : Option Nat)
  | terminateCall
  | killCall
deriving DecidableEq, Repr

/-- `flush` runs exactly `self.converter.stdin.close(); self.converter.wait()`;
the `wait` is called with no timeout and no `terminate`/`kill` ever occurs. -/
def flushPopenCalls : List PopenCall := [PopenCall.waitCall none]

/-- The two steps of `BroadcastOutput.flush` itself. -/
def flushEvents : List LifecycleEv :=
  [LifecycleEv.stdinClose, LifecycleEv.converterWait]

/-- Whether `Popen.wait(timeout)` returns control to the caller, given when
(if ever) the process exits: it always returns when the process exits, a
wait with a timeout regains control at the deadline (`TimeoutExpired`), and
a wait with no timeout on a never-exiting process blocks forever. -/
def waitReturns : Option Nat → Option Nat → Bool
  | _, some _ => true
  | some _, none => true
  | none, none => false

/-- Whether `BroadcastOutput.flush` terminates, given when (if ever) the
converter process exits. -/
def flushReturns (exitsAt : Option Nat) : Bool := waitReturns none exitsAt

/-! ## Helper lemmas -/

theorem safeSubAux_plain_cons (m : List (String × String)) (c : Char) (r : List Char)
    (h : c ≠ '$') :
    safeSubAux m SubMode.plain (c :: r) = c :: safeSubAux m SubMode.plain r := by
  simp [safeSubAux, h]

theorem safeSubList_append_of_no_dollar (m : List (String × String)) (pre rest : List Char)
    (h : '$' ∉ pre) :
    safeSubList m (pre ++ rest) = pre ++ safeSubList m rest := by
  induction pre with
  | nil => rfl
  | cons c p ih =>
      have hc : c ≠ '$' := fun hcc => h (hcc ▸ List.mem_cons_self c p)
      have hp : '$' ∉ p := fun hm => h (List.mem_cons_of_mem _ hm)
      simp only [safeSubList] at ih ⊢
      rw [List.cons_append, safeSubAux_plain_cons m c _ hc, ih hp]
      rfl

theorem safeSubAux_inBraced_run (m : List (String × String)) (k₂ : List Char)
    (hk : ∀ c ∈ k₂, isIdentChar c = true) (acc : List Char) (hacc : acc ≠ [])
    (rest : List Char) :
    safeSubAux m (SubMode.inBraced acc) (k₂ ++ '}' :: rest)
      = resolveBraced m (acc ++ k₂) ++ safeSubAux m SubMode.plain rest := by
  induction k₂ generalizing acc with
  | nil =>
      obtain ⟨a, acc', rfl⟩ := List.exists_cons_of_ne_nil hacc
      have h1 : isIdentChar '}' = false := by decide
      simp [safeSubAux, h1]
  | cons c k₂' ih =>
      have hc : isIdentChar c = true := hk c (List.mem_cons_self c k₂')
      have hk' : ∀ x ∈ k₂', isIdentChar x = true := fun x hx => hk x (List.mem_cons_of_mem _ hx)
      obtain ⟨a, acc', rfl⟩ := List.exists_cons_of_ne_nil hacc
      simp only [List.cons_append, safeSubAux, List.isEmpty_cons, hc, if_true, if_false,
        Bool.false_eq_true]
      simpa using ih hk' (a :: (acc' ++ [c])) (by simp)

theorem safeSubList_braced (m : List (String × String)) (c₀ : Char) (k rest : List Char)
    (h₀ : isIdentStart c₀ = true) (hk : ∀ c ∈ k, isIdentChar c = true) :
    safeSubList m ('$' :: '{' :: ((c₀ :: k) ++ '}' :: rest))
      = resolveBraced m (c₀ :: k) ++ safeSubList m rest := by
  have step : safeSubAux m SubMode.plain ('$' :: '{' :: ((c₀ :: k) ++ '}' :: rest))
      = safeSubAux m (SubMode.inBraced [c₀]) (k ++ '}' :: rest) := by
    simp [safeSubAux, h₀]
  rw [safeSubList, step, safeSubAux_inBraced_run m k hk [c₀] (by simp) rest]
  rfl

theorem runBody_count_close (s : List IterOutcome) :
    (runBody s).1.count RunEv.closeEv = 0 := by
  induction s with
  | nil => decide
  | cons h t ih =>
      cases h with
      | readOk b dok => cases dok <;> simp [runBody, List.count_cons, ih]
      | readEmptyAlive => simp [runBody, List.count_cons, ih]
      | readFail => simp [runBody, List.count_cons]

/-! ## Claim theorems -/

/-- C1: upon connection a viewer session is sent exactly one handshake, before
any compressed frame data it observes, and the handshake is exactly 8 bytes:
the 4-byte ASCII magic `jsmp` followed by width and height as unsigned 16-bit
big-endian integers; for width 640 and height 480 these are the magic bytes
followed by `0x0280` and `0x01E0`. -/
theorem handshake_once_first_and_bytes (frames : List (List Nat)) :
    jsmpegHeaderPack JSMPEG_MAGIC WIDTH HEIGHT
        = [0x6A, 0x73, 0x6D, 0x70, 0x02, 0x80, 0x01, 0xE0]
    ∧ (jsmpegHeaderPack JSMPEG_MAGIC WIDTH HEIGHT).length = 8
    ∧ (sessionObserved frames).countP isHandshakeMsg = 1
    ∧ sessionObserved frames
        = WsMsg.handshake (jsmpegHeaderPack JSMPEG_MAGIC WIDTH HEIGHT)
            :: frames.map WsMsg.frame := by
  refine ⟨by decide, by decide, ?_, rfl⟩
  have hz : (frames.map WsMsg.frame).countP isHandshakeMsg = 0 := by
    rw [List.countP_eq_zero]
    intro a ha
    obtain ⟨b, _, rfl⟩ := List.mem_map.mp ha
    simp [isHandshakeMsg]
  simp [sessionObserved, openedMessages, List.countP_cons, hz, isHandshakeMsg]

/-- C5: `/` yields a 301 redirect with Location `/index.html`; `/index.html`
yields 200 with content type `text/html; charset=utf-8` and a templated body
containing the configured resolution values; the client-script path yields 200
with content type `application/javascript`; every other path yields 404. -/
theorem http_route_map (path : String) (h1 : path ≠ "/") (h2 : path ≠ "/jsmpg.js")
    (h3 : path ≠ "/index.html") :
    ((handleRequest sampleCtx Method.GET "/").status = 301
      ∧ ("Location", "/index.html") ∈ (handleRequest sampleCtx Method.GET "/").headers)
    ∧ ((handleRequest sampleCtx Method.GET "/index.html").status = 200
      ∧ ("Content-Type", "text/html; charset=utf-8")
          ∈ (handleRequest sampleCtx Method.GET "/index.html").headers
      ∧ bodyContains (handleRequest sampleCtx Method.GET "/index.html") (toString WIDTH) = true
      ∧ bodyContains (handleRequest sampleCtx Method.GET "/index.html") (toString HEIGHT) = true)
    ∧ ((handleRequest sampleCtx Method.GET "/jsmpg.js").status = 200
      ∧ ("Content-Type", "application/javascript")
          ∈ (handleRequest sampleCtx Method.GET "/jsmpg.js").headers)
    ∧ (handleRequest sampleCtx Method.GET path).status = 404 := by
  refine ⟨⟨by decide, by decide⟩, ⟨by decide, by decide, by decide, by decide⟩,
    ⟨by decide, by decide⟩, ?_⟩
  simp [handleRequest, h1, h2, h3, sendError404]

/-- Witness for C5 at the concrete path `/nonexistent.file`. -/
theorem http_route_map_witness :
    (handleRequest sampleCtx Method.GET "/nonexistent.file").status = 404 :=
  (http_route_map "/nonexistent.file" (by decide) (by decide) (by decide)).2.2.2

/-- C6 counterexample: the 301 redirect for `/` carries none of Content-Type,
Content-Length or Last-Modified, and the 404 response carries no
Last-Modified, refuting "every response includes all three headers". -/
theorem headers_on_all_routes_cex :
    hasHeader (handleRequest sampleCtx Method.GET "/") "Content-Type" = false
    ∧ hasHeader (handleRequest sampleCtx Method.GET "/") "Content-Length" = false
    ∧ hasHeader (handleRequest sampleCtx Method.GET "/") "Last-Modified" = false
    ∧ hasHeader (handleRequest sampleCtx Method.GET "/missing") "Last-Modified" = false := by
  decide

/-- C6 amended: only the 200 responses (`/index.html` and `/jsmpg.js`) carry
Content-Type, Content-Length and Last-Modified; the 301 redirect carries only
the automatic Server and Date headers plus Location, and the 404 error carries
Content-Type and Content-Length but no Last-Modified. -/
theorem headers_on_routes_amended (cmd : Method) :
    (hasHeader (handleRequest sampleCtx cmd "/index.html") "Content-Type" = true
      ∧ hasHeader (handleRequest sampleCtx cmd "/index.html") "Content-Length" = true
      ∧ hasHeader (handleRequest sampleCtx cmd "/index.html") "Last-Modified" = true)
    ∧ (hasHeader (handleRequest sampleCtx cmd "/jsmpg.js") "Content-Type" = true
      ∧ hasHeader (handleRequest sampleCtx cmd "/jsmpg.js") "Content-Length" = true
      ∧ hasHeader (handleRequest sampleCtx cmd "/jsmpg.js") "Last-Modified" = true)
    ∧ (handleRequest sampleCtx cmd "/").headers.map Prod.fst = ["Server", "Date", "Location"]
    ∧ (hasHeader (handleRequest sampleCtx cmd "/missing") "Content-Type" = true
      ∧ hasHeader (handleRequest sampleCtx cmd "/missing") "Content-Length" = true
      ∧ hasHeader (handleRequest sampleCtx cmd "/missing") "Last-Modified" = false) := by
  cases cmd <;> decide

/-- C8: for every path, a HEAD request produces exactly the same status code
and headers as a GET request for that path, but writes no response body. -/
theorem head_matches_get (ctx : Ctx) (path : String) :
    (handleRequest ctx Method.HEAD path).status = (handleRequest ctx Method.GET path).status
    ∧ (handleRequest ctx Method.HEAD path).headers = (handleRequest ctx Method.GET path).headers
    ∧ (handleRequest ctx Method.HEAD path).body = none := by
  unfold handleRequest respond200 sendError404
  split_ifs <;> simp_all

/-- C2 counterexample: the claimed order puts the hub shutdown before the
network listeners are stopped, but in `Server.cleanup` the StaticAssetServer
listener (`http_server.shutdown()`) is stopped before the websocket server —
the only call that shuts the hub's side down — is shut down. -/
theorem shutdown_order_cex :
    ¬ (cleanupEvents.indexOf LifecycleEv.websocketServerShutdown
        < cleanupEvents.indexOf LifecycleEv.httpServerShutdown) := by
  decide

/-- C2 amended: during an orderly shutdown, capture-forwarding stops first,
then the transcoder's input is closed and the process is waited on while the
forwarding loop drains the remaining output to the hub until the stream ends
(the forwarding loop is joined at this point), then the HTTP listener is
stopped, then the websocket server is shut down, then the HTTP and websocket
listener loops are joined. -/
theorem shutdown_order_amended :
    cleanupEvents.indexOf LifecycleEv.stopCapture
        < cleanupEvents.indexOf LifecycleEv.stdinClose
    ∧ cleanupEvents.indexOf LifecycleEv.stdinClose
        < cleanupEvents.indexOf LifecycleEv.converterWait
    ∧ cleanupEvents.indexOf LifecycleEv.converterWait
        < cleanupEvents.indexOf LifecycleEv.stdoutClose
    ∧ cleanupEvents.indexOf LifecycleEv.stdoutClose
        < cleanupEvents.indexOf LifecycleEv.broadcastJoin
    ∧ cleanupEvents.indexOf LifecycleEv.broadcastJoin
        < cleanupEvents.indexOf LifecycleEv.httpServerShutdown
    ∧ cleanupEvents.indexOf LifecycleEv.httpServerShutdown
        < cleanupEvents.indexOf LifecycleEv.websocketServerShutdown
    ∧ cleanupEvents.indexOf LifecycleEv.websocketServerShutdown
        < cleanupEvents.indexOf LifecycleEv.httpJoin
    ∧ cleanupEvents.indexOf LifecycleEv.httpJoin
        < cleanupEvents.indexOf LifecycleEv.websocketJoin := by
  decide

/-- C3 counterexample: the first invocation of the shutdown sequence ends
without error with the recording stopped, but the second invocation does not
reproduce that error-free end state — it raises `PiCameraNotRecording` at
`camera.stop_recording`, refuting "same end state as invoking it once, with
no error". -/
theorem cleanup_twice_cex :
    (cleanup ⟨true⟩).2 = Except.ok ⟨false⟩
    ∧ (cleanup ⟨false⟩).2 ≠ Except.ok ⟨false⟩ :=
  ⟨rfl, by simp [cleanup, stopRecording]⟩

/-- C3 amended: the shutdown sequence is not idempotent: the first
invocation runs the full teardown and ends with the recording stopped; a
second invocation raises `PiCameraNotRecording` at its very first step
(`camera.stop_recording`) and aborts, performing none of the teardown steps
— `cleanup` has no lifecycle guard. -/
theorem cleanup_twice_amended :
    (cleanup ⟨true⟩).1 = cleanupEvents
    ∧ (cleanup ⟨true⟩).2 = Except.ok ⟨false⟩
    ∧ (cleanup ⟨false⟩).1 = []
    ∧ (cleanup ⟨false⟩).2 = Except.error PiCameraError.notRecording :=
  ⟨rfl, rfl, rfl, rfl⟩

/-- C4 counterexample: `BroadcastOutput.flush` calls `converter.wait()` with
no timeout and never calls `terminate` or `kill`, so if the process never
exits the teardown wait never returns — the wait is not bounded and there is
no escalation to forced termination. -/
theorem flush_unbounded_cex :
    flushReturns none = false
    ∧ PopenCall.terminateCall ∉ flushPopenCalls
    ∧ PopenCall.killCall ∉ flushPopenCalls := by decide

/-- C4 amended: transcoder stop closes the process's input side, then waits
for process exit with no timeout, and the output side is closed by the
forwarding thread afterwards; the wait returns whenever the process exits,
but nothing bounds it and no forced termination exists, so teardown hangs if
the process never exits. -/
theorem flush_order_amended :
    flushEvents = [LifecycleEv.stdinClose, LifecycleEv.converterWait]
    ∧ cleanupEvents.indexOf LifecycleEv.stdinClose
        < cleanupEvents.indexOf LifecycleEv.converterWait
    ∧ cleanupEvents.indexOf LifecycleEv.converterWait
        < cleanupEvents.indexOf LifecycleEv.stdoutClose
    ∧ flushPopenCalls = [PopenCall.waitCall none]
    ∧ (∀ t : Nat, flushReturns (some t) = true)
    ∧ flushReturns none = false :=
  ⟨rfl, by decide, by decide, rfl, fun _ => rfl, rfl⟩

/-- C9: every chunk the forwarding loop passes to the hub's broadcast is
non-empty and at most 512 bytes (the fixed read granularity), and the chunks
are broadcast one at a time in the order they were read: concatenated, they
reproduce the transcoder's output stream. -/
theorem broadcast_chunks_sized (stream : List Nat) :
    (∀ c ∈ broadcastChunks stream, c ≠ [] ∧ c.length ≤ CHUNK_SIZE)
    ∧ (broadcastChunks stream).flatten = stream := by
  induction stream using broadcastChunks.induct with
  | case1 => simp [broadcastChunks]
  | case2 c s ih =>
      rw [broadcastChunks]
      refine ⟨?_, ?_⟩
      · intro ch hch
        rcases List.mem_cons.mp hch with rfl | hm
        · exact ⟨by simp [CHUNK_SIZE], List.length_take_le _ _⟩
        · exact ih.1 ch hm
      · simp only [List.flatten_cons, ih.2, List.take_append_drop]

/-- Witness for C9 on the one-byte stream `[5]`. -/
theorem broadcast_chunks_sized_witness :
    [5].take CHUNK_SIZE ≠ [] ∧ ([5].take CHUNK_SIZE).length ≤ CHUNK_SIZE :=
  (broadcast_chunks_sized [5]).1 ([5].take CHUNK_SIZE)
    (by simp only [broadcastChunks]; exact List.mem_cons_self _ _)

/-- C10: the transcoder's output handle is closed on every exit path of the
forwarding loop — whether the loop ends normally or an exception escapes a
read or a broadcast, the `finally` closes stdout exactly once, as the last
event before the thread finishes. -/
theorem stdout_closed_once (script : List IterOutcome) :
    (runThread script).1.count RunEv.closeEv = 1
    ∧ (runThread script).1.getLast? = some RunEv.closeEv := by
  unfold runThread
  refine ⟨?_, by simp⟩
  simp [List.count_append, runBody_count_close]

/-- C7: template substitution is literal key/value replacement — a known
placeholder is replaced with its configured value, an unknown placeholder is
left untouched in the output, and the safe engine returns a result on a
malformed template (a lone `$`) where the strict engine raises. -/
theorem template_substitution_literal (m : List (String × String)) (pre : List Char)
    (c₀ : Char) (k rest : List Char) (hpre : '$' ∉ pre) (h₀ : isIdentStart c₀ = true)
    (hk : ∀ c ∈ k, isIdentChar c = true) :
    (∀ v : String, List.lookup (String.mk (c₀ :: k)) m = some v →
        safeSubList m (pre ++ '$' :: '{' :: ((c₀ :: k) ++ '}' :: rest))
          = pre ++ v.data ++ safeSubList m rest)
    ∧ (List.lookup (String.mk (c₀ :: k)) m = none →
        safeSubList m (pre ++ '$' :: '{' :: ((c₀ :: k) ++ '}' :: rest))
          = pre ++ '$' :: '{' :: ((c₀ :: k) ++ '}' :: safeSubList m rest))
    ∧ (subStrict m "$" = Except.error SubError.invalidPlaceholder
        ∧ safeSubstitute m "$" = "$") := by
  refine ⟨?_, ?_, rfl, rfl⟩
  · intro v hv
    rw [safeSubList_append_of_no_dollar m pre _ hpre, safeSubList_braced m c₀ k rest h₀ hk,
      resolveBraced, hv]
    simp
  · intro hv
    rw [safeSubList_append_of_no_dollar m pre _ hpre, safeSubList_braced m c₀ k rest h₀ hk,
      resolveBraced, hv]
    simp

/-- Witness for C7: in the code's own mapping, a known placeholder
(`WIDTH`) is replaced by `640` after a dollar-free prefix. -/
theorem template_substitution_literal_witness :
    safeSubList (templateEnv "192.168.1.20")
        ([' '] ++ '$' :: '{' :: (('W' :: "IDTH".data) ++ '}' :: " tail".data))
      = [' '] ++ "640".data ++ safeSubList (templateEnv "192.168.1.20") " tail".data :=
  (template_substitution_literal (templateEnv "192.168.1.20") [' '] 'W' "IDTH".data
    " tail".data (by decide) (by decide) (by decide)).1 "640" (by decide)
